import Mathlib

/-!
Verification of the cadastral shapefile API (`app.py`) against its
natural-language specification.

The embedding models the feature collection produced by `gpd.read_file`,
the WGS84 conversion step shared by all endpoints, the query engine
(pagination, by-index lookup, substring search, top-N by area) and the
fiscal status simulator of `/api/parcelles/with-status`.

Conventions:
* Geometries are abstracted by the planar area they yield in each of the
  two reference systems in play: the source CRS of the shapefile and
  EPSG:4326 (the web display CRS).  `to_crs` switches which one `.area`
  reads, exactly as reprojecting changes the coordinates the area is
  computed from.
* Attribute cells are `Option String`: `none` models a missing cell
  (pandas `NaN`), `some v` the cell's value coerced to text.
* Python floats are modelled as rationals; `round` is Python 3 rounding,
  i.e. round-half-to-even.
* The simulator's random draws (`random.uniform`, `random.random`,
  `random.randint`) are passed in explicitly as a `Draw`.
-/

attribute [local semireducible] Rat.mul Rat.inv Rat.add Rat.sub

/-- Python 3 `round(q)`: nearest integer, ties to even.
`q.num / q.den` is `⌊q⌋` (see `Rat.floor_def`); written this way so the
function evaluates inside `decide`. -/
def pyRound (q : ℚ) : ℤ :=
  let f : ℤ := q.num / (q.den : ℤ)
  let frac : ℚ := q - (f : ℚ)
  if frac < 1/2 then f
  else if 1/2 < frac then f + 1
  else if f % 2 = 0 then f else f + 1

/-- Python 3 `round(q, n)` for `n` decimal digits. -/
def pyRoundTo (q : ℚ) (n : ℕ) : ℚ := (pyRound (q * 10^n) : ℚ) / 10^n

/-- A geometry, abstracted by the planar area its coordinates give in the
source CRS and in EPSG:4326, plus which of the two its coordinates are
currently expressed in. -/
structure Geometry where
  srcArea : ℚ
  wgs84Area : ℚ
  inWgs84 : Bool
deriving DecidableEq

/-- `.area` of a geometry: the planar area in whatever CRS the
coordinates currently are. -/
def Geometry.area (g : Geometry) : ℚ :=
  if g.inWgs84 then g.wgs84Area else g.srcArea

/-- Reprojecting a geometry to EPSG:4326. -/
def Geometry.toWgs84 (g : Geometry) : Geometry :=
  { g with inWgs84 := true }

/-- One cadastral feature: a geometry and the row's attribute cells,
keyed by column name.  A pair `(c, none)` is a present column whose cell
is missing (`NaN`); a column absent from the list is not in the frame's
columns at all. -/
structure Feature where
  geometry : Geometry
  attrs : List (String × Option String)
deriving DecidableEq

/-- The attribute cell of `f` in column `col`, `none` when the cell is
missing or the column is absent. -/
def Feature.cell (f : Feature) (col : String) : Option String :=
  match f.attrs.find? (fun p => p.1 == col) with
  | some p => p.2
  | none => none

/-- The feature collection as loaded by `gpd.read_file`: its CRS (as an
EPSG code, `none` when the file has no CRS), its attribute columns, and
its features in load order. -/
structure GeoDataFrame where
  crsEpsg : Option ℕ
  columns : List String
  feats : List Feature
deriving DecidableEq

/-- `gdf.to_crs(epsg=4326)`: every geometry is reprojected. -/
def GeoDataFrame.to_crs4326 (gdf : GeoDataFrame) : GeoDataFrame :=
  { gdf with
    crsEpsg := some 4326
    feats := gdf.feats.map (fun f => { f with geometry := f.geometry.toWgs84 }) }

/-- The conversion block repeated in every endpoint:
`if gdf.crs and gdf.crs.to_epsg() != 4326: gdf = gdf.to_crs(epsg=4326)`. -/
def convertToWGS84 (gdf : GeoDataFrame) : GeoDataFrame :=
  match gdf.crsEpsg with
  | some e => if e ≠ 4326 then gdf.to_crs4326 else gdf
  | none => gdf

/-- `/api/features` (`get_features`): pagination.  Returns the page
slice `gdf.iloc[(page-1)*per_page : page*per_page]` together with
`total_pages = (len(gdf) + per_page - 1) // per_page`. -/
def get_features (gdf0 : GeoDataFrame) (page per_page : ℕ) :
    List Feature × ℕ :=
  let gdf := convertToWGS84 gdf0
  let start_idx := (page - 1) * per_page
  ((gdf.feats.drop start_idx).take per_page,
   (gdf.feats.length + per_page - 1) / per_page)

/-- Response of `/api/features/<id>`: the three ways the handler can
answer (200 with the feature, 404 `"Feature not found"`, or the generic
500 produced by the `except` clause). -/
inductive FeatureResponse where
  | ok (f : Feature) : FeatureResponse
  | notFound : FeatureResponse
  | serverError : FeatureResponse
deriving DecidableEq

/-- `/api/features/<id>` (`get_feature`): bounds check against the
unconverted frame, then the WGS84-converted feature at that position. -/
def get_feature (gdf0 : GeoDataFrame) (feature_id : ℤ) : FeatureResponse :=
  if feature_id < 0 ∨ (gdf0.feats.length : ℤ) ≤ feature_id then
    .notFound
  else
    match (convertToWGS84 gdf0).feats[feature_id.toNat]? with
    | some f => .ok f
    | none => .serverError

/-- Does `pat` occur at the head of `hay`? -/
def leadMatch : List Char → List Char → Bool
  | [], _ => true
  | _ :: _, [] => false
  | c :: cs, h :: hs => (c == h) && leadMatch cs hs

/-- Does `pat` occur anywhere in `hay`? -/
def listContains (hay pat : List Char) : Bool :=
  match hay with
  | [] => pat.isEmpty
  | _ :: t => leadMatch pat hay || listContains t pat

/-- `Series.str.contains(pat, case=False)` on a string cell, modelled
on the fragment of patterns free of regex metacharacters.  Pandas
treats `pat` as a regular expression (`regex=True` by default):
`re.search(pat, cell, re.IGNORECASE)`.  On a pattern containing none of
the characters `re` gives special meaning (listed in `pyRegexMeta`) the
regex denotes its own literal text and `re.search` is exactly a
substring test, so this function is the exact semantics there; a
pattern with metacharacters is a full regular expression (and an
invalid one raises `re.error`, which the handler's `except` converts to
the generic 500 failure) — both outside the fragment this development
covers, as the hypotheses of the C5 theorem record.  Case folding is
per `Char.toLower`, exact on ASCII text. -/
def str_contains_ci (s pat : String) : Bool :=
  listContains (s.data.map Char.toLower) (pat.data.map Char.toLower)

/-- The code points of the characters Python's `re` gives special
meaning: `. ^ $ * + ? { } [ ] \ | ( )`. -/
def pyRegexMeta : List ℕ :=
  [46, 94, 36, 42, 43, 63, 123, 125, 91, 93, 92, 124, 40, 41]

/-- An ASCII pattern containing no regex metacharacter: on such a
pattern `re.search` with `re.IGNORECASE` coincides with
case-insensitive substring containment, so `str_contains_ci` models it
exactly. -/
def plainPattern (s : String) : Bool :=
  s.data.all (fun c => decide (c.toNat < 128) && !(pyRegexMeta.contains c.toNat))

/-- ASCII-only text: on it Python's `re.IGNORECASE` case folding agrees
with `Char.toLower`. -/
def asciiText (s : String) : Bool :=
  s.data.all (fun c => decide (c.toNat < 128))

/-- `Series.astype(str)` on one cell: a missing cell (`NaN`) is
stringified to `"nan"`, any other cell is already text. -/
def astype_str (v : Option String) : String :=
  match v with
  | some s => s
  | none => "nan"

/-- The filter loop of `search_features`:
for each query parameter `(key, value)`, when `key` is one of the
frame's columns, keep the rows whose cell in that column — after
`astype(str)` — matches `value` case-insensitively; other keys are
skipped.  The match is `str_contains_ci`, i.e. the code's regex search
on the metacharacter-free pattern fragment. -/
def applyFilters (cols : List String) (filters : List (String × String))
    (feats : List Feature) : List Feature :=
  filters.foldl
    (fun acc kv =>
      if cols.contains kv.1 then
        acc.filter (fun f => str_contains_ci (astype_str (f.cell kv.1)) kv.2)
      else acc)
    feats

/-- `/api/search` (`search_features`): convert to WGS84, then filter by
every query parameter naming a column. -/
def search_features (gdf0 : GeoDataFrame) (query_params : List (String × String)) :
    List Feature :=
  let gdf := convertToWGS84 gdf0
  applyFilters gdf.columns query_params gdf.feats

/-- The sort order used by `nlargest(n, 'area_m2')` on the indexed area
column: larger area first, ties broken by smaller original index
(pandas `keep='first'`, i.e. a stable descending sort). -/
def nlargestLE (p q : ℕ × ℚ) : Bool :=
  decide (q.2 < p.2 ∨ (p.2 = q.2 ∧ p.1 ≤ q.1))

/-- `DataFrame.nlargest(n, col)` over an indexed column: the first `n`
entries of the column sorted by `nlargestLE`. -/
def nlargest (n : ℕ) (l : List (ℕ × ℚ)) : List (ℕ × ℚ) :=
  (List.insertionSort (fun p q => nlargestLE p q = true) l).take n

/-- The area series built by `get_largest_parcels`:
`gdf_working['area_m2'] = gdf_working.geometry.area`, computed after the
WGS84 conversion block above it. -/
def largest_area_series (gdf0 : GeoDataFrame) : List ℚ :=
  (convertToWGS84 gdf0).feats.map (fun f => f.geometry.area)

/-- The ranked parcels of `get_largest_parcels`:
`largest_parcels = gdf_working.nlargest(n, 'area_m2')`, each entry an
(original index, raw area) pair. -/
def rankedAreas (gdf0 : GeoDataFrame) (n : ℕ) : List (ℕ × ℚ) :=
  nlargest n (largest_area_series gdf0).enum

/-- `Series.max()` on a nonempty column (0 on an empty one). -/
def seriesMax : List ℚ → ℚ
  | [] => 0
  | x :: xs => xs.foldl max x

/-- `Series.min()` on a nonempty column (0 on an empty one). -/
def seriesMin : List ℚ → ℚ
  | [] => 0
  | x :: xs => xs.foldl min x

/-- `Series.mean()` on a nonempty column (0 on an empty one). -/
def seriesMean (l : List ℚ) : ℚ := l.sum / l.length

/-- The `area_summary` object of `/api/largest`. -/
structure AreaSummary where
  max_area_m2 : ℚ
  max_area_ha : ℚ
  min_area_m2 : ℚ
  min_area_ha : ℚ
  average_area_m2 : ℚ
  average_area_ha : ℚ
deriving DecidableEq

/-- The `area_summary` computed by `get_largest_parcels` from the raw
`area_m2` column of the selected parcels. -/
def area_summary (sel : List ℚ) : AreaSummary :=
  { max_area_m2 := pyRoundTo (seriesMax sel) 2
    max_area_ha := pyRoundTo (seriesMax sel / 10000) 2
    min_area_m2 := pyRoundTo (seriesMin sel) 2
    min_area_ha := pyRoundTo (seriesMin sel / 10000) 2
    average_area_m2 := pyRoundTo (seriesMean sel) 2
    average_area_ha := pyRoundTo (seriesMean sel / 10000) 2 }

/-- One entry of the `largest_parcels` array: original index, the
per-feature `area_m2` and `area_ha` properties (rounded to 2 decimals)
and the 1-based `rank`. -/
structure RankedParcel where
  idx : ℕ
  area_m2 : ℚ
  area_ha : ℚ
  rank : ℕ
deriving DecidableEq

/-- The payload of `/api/largest` (`get_largest_parcels`), with the top
count `n` as a parameter (the handler calls it with `n = 3`). -/
def get_largest_parcels (gdf0 : GeoDataFrame) (n : ℕ) :
    List RankedParcel × AreaSummary :=
  let ranked := rankedAreas gdf0 n
  (ranked.enum.map (fun e =>
     { idx := e.2.1
       area_m2 := pyRoundTo e.2.2 2
       area_ha := pyRoundTo (e.2.2 / 10000) 2
       rank := e.1 + 1 }),
   area_summary (ranked.map (fun p => p.2)))

/-- Zero-padded decimal of width 4: the Python format `f'{idx:04d}'`. -/
def pad4 (n : ℕ) : String :=
  let s := toString n
  if s.length < 4 then String.mk (List.replicate (4 - s.length) '0') ++ s else s

/-- The attribute lookup pattern of the simulator:
`row.get(col, dflt) if col in row else dflt`, followed by `str(...)`.
A present cell gives its text, a present-but-missing cell stringifies to
`"nan"`, an absent column gives the fallback. -/
def get_field (f : Feature) (col : String) (dflt : String) : String :=
  match f.attrs.find? (fun p => p.1 == col) with
  | some p =>
    match p.2 with
    | some v => v
    | none => "nan"
  | none => dflt

/-- The random draws one loop iteration of `get_parcelles_with_status`
consumes: `random.uniform(100, 1000)`, `random.random()`,
`random.randint(1, 6)` and `random.randint(1, 3)`. -/
structure Draw where
  prix_m2 : ℚ
  rand_val : ℚ
  mois_retard : ℤ
  annees_impayees : ℤ
deriving DecidableEq

/-- The three fiscal statuses of the simulator. -/
inductive Statut where
  | a_jour : Statut
  | en_retard : Statut
  | impaye : Statut
deriving DecidableEq

/-- One entry of the `parcelles` array of
`/api/parcelles/with-status`. -/
structure Parcelle where
  numero : String
  proprietaireNom : String
  adresse : String
  superficie : ℚ
  impotAnnuel : ℤ
  montantDu : ℤ
  statut : Statut
deriving DecidableEq

/-- `impot_annuel = round(superficie * prix_m2 / 1000) * 1000`. -/
def impot_annuel (superficie prix_m2 : ℚ) : ℤ :=
  pyRound (superficie * prix_m2 / 1000) * 1000

/-- One loop iteration of `get_parcelles_with_status`: display-field
fallbacks, `superficie = round(row.geometry.area, 2)`, the annual tax,
and the status draw (`rand_val < 0.4` current, `< 0.75` late with 1–6
months owed, else unpaid with 1–3 years owed). -/
def genParcelle (idx : ℕ) (f : Feature) (d : Draw) : Parcelle :=
  let numero := get_field f "NUMERO" ("PARC_" ++ pad4 idx)
  let proprietaire := get_field f "NOM" ("Propriétaire " ++ toString idx)
  let adresse := get_field f "ADRESSE" "Biyem-Assi, Yaoundé"
  let superficie := pyRoundTo f.geometry.area 2
  let impot := impot_annuel superficie d.prix_m2
  let sm : Statut × ℤ :=
    if d.rand_val < 2/5 then (Statut.a_jour, 0)
    else if d.rand_val < 3/4 then
      (Statut.en_retard, pyRound ((impot : ℚ) / 12 * d.mois_retard))
    else (Statut.impaye, impot * d.annees_impayees)
  { numero := numero
    proprietaireNom := proprietaire
    adresse := adresse
    superficie := superficie
    impotAnnuel := impot
    montantDu := sm.2
    statut := sm.1 }

/-- The `stats` object of `/api/parcelles/with-status`. -/
structure Stats where
  total : ℕ
  parcellesAJour : ℕ
  parcellesEnRetard : ℕ
  parcellesImpayees : ℕ
  totalRevenu : ℤ
  totalDu : ℤ
  tauxConformite : ℚ
deriving DecidableEq

/-- The aggregate statistics block at the end of
`get_parcelles_with_status`, including the guarded compliance rate
`round((parcelles_a_jour / total_parcelles) * 100, 1) if
total_parcelles > 0 else 0`. -/
def computeStats (ps : List Parcelle) : Stats :=
  let total := ps.length
  let aJour := (ps.filter (fun p => decide (p.statut = Statut.a_jour))).length
  let enRetard := (ps.filter (fun p => decide (p.statut = Statut.en_retard))).length
  let impayees := (ps.filter (fun p => decide (p.statut = Statut.impaye))).length
  { total := total
    parcellesAJour := aJour
    parcellesEnRetard := enRetard
    parcellesImpayees := impayees
    totalRevenu := (ps.map (fun p => p.impotAnnuel)).sum
    totalDu := (ps.map (fun p => p.montantDu)).sum
    tauxConformite :=
      if 0 < total then pyRoundTo (((aJour : ℚ) / total) * 100) 1 else 0 }

/-- `/api/parcelles/with-status` (`get_parcelles_with_status`): convert
to WGS84, simulate one fiscal record per feature (consuming one `Draw`
per row), and compute the aggregate statistics. -/
def get_parcelles_with_status (gdf0 : GeoDataFrame) (draws : List Draw) :
    List Parcelle × Stats :=
  let gdf := convertToWGS84 gdf0
  let ps := (gdf.feats.zip draws).enum.map
    (fun e => genParcelle e.1 e.2.1 e.2.2)
  (ps, computeStats ps)

/-- Whether `col` is one of the row's columns (`col in row`). -/
def Feature.hasCol (f : Feature) (col : String) : Bool :=
  (f.attrs.find? (fun p => p.1 == col)).isSome

/-- Modelled from the spec: the annual-tax rule exactly as claim C3
words it.  Its first branch — "if a monetary attribute column carries a
positive value, use it directly (truncated to integer)" — has no
counterpart anywhere in `app.py`, which never consults an attribute when
computing the tax. -/
def claimC3Tax (monetary : Option ℤ) (superficie prix_m2 : ℚ) : ℤ :=
  match monetary with
  | some v => if 0 < v then v else impot_annuel superficie prix_m2
  | none => impot_annuel superficie prix_m2

/-- Claim C2, stated over the embedding: the page slice is exactly the
positions `[(page-1)*per_page, page*per_page)` of the collection clipped
to its bounds, an out-of-range page gives `[]`, and `total_pages` is the
least `k` with `total ≤ per_page * k`, i.e. `⌈total / per_page⌉`. -/
def PaginationCorrect (gdf : GeoDataFrame) (page per_page : ℕ) : Prop :=
  (∀ i : ℕ, (get_features gdf page per_page).1[i]? =
      if i < per_page then (convertToWGS84 gdf).feats[(page - 1) * per_page + i]?
      else none)
  ∧ (get_features gdf page per_page).1.length =
      min per_page ((convertToWGS84 gdf).feats.length - (page - 1) * per_page)
  ∧ ((convertToWGS84 gdf).feats.length ≤ (page - 1) * per_page →
      (get_features gdf page per_page).1 = [])
  ∧ (∀ k : ℕ, (get_features gdf page per_page).2 ≤ k ↔
      (convertToWGS84 gdf).feats.length ≤ per_page * k)

/-- Claim C7, stated over the embedding: `not found` exactly on
out-of-range ids, success with the feature at position `id` otherwise,
and the generic failure signal never from the index check. -/
def GetByIndexCorrect (gdf : GeoDataFrame) (i : ℤ) : Prop :=
  (get_feature gdf i = .notFound ↔ (i < 0 ∨ (gdf.feats.length : ℤ) ≤ i))
  ∧ get_feature gdf i ≠ .serverError
  ∧ (∀ j : ℕ, (j : ℤ) = i → j < gdf.feats.length →
      ∃ f, (convertToWGS84 gdf).feats[j]? = some f ∧ get_feature gdf i = .ok f)

/-- Claim C4, stated over the embedding: the three status bands of the
simulator and the owed amount in each. -/
def StatusRuleCorrect (idx : ℕ) (f : Feature) (d : Draw) : Prop :=
  (d.rand_val < 2/5 →
    (genParcelle idx f d).statut = Statut.a_jour ∧
    (genParcelle idx f d).montantDu = 0)
  ∧ (2/5 ≤ d.rand_val → d.rand_val < 3/4 →
    (genParcelle idx f d).statut = Statut.en_retard ∧
    (genParcelle idx f d).montantDu =
      pyRound (((genParcelle idx f d).impotAnnuel : ℚ) / 12 * d.mois_retard))
  ∧ (3/4 ≤ d.rand_val →
    (genParcelle idx f d).statut = Statut.impaye ∧
    (genParcelle idx f d).montantDu =
      (genParcelle idx f d).impotAnnuel * d.annees_impayees)

/-- The retention test of one search filter `(key, value)` on a row:
keys naming no column are ignored, otherwise the stringified cell must
contain the pattern case-insensitively. -/
def filterPass (cols : List String) (kv : String × String) (f : Feature) : Bool :=
  !(cols.contains kv.1) || str_contains_ci (astype_str (f.cell kv.1)) kv.2

/-- Claim C5 (as amended), stated over the embedding: the search result
is exactly the subcollection — in order — of rows passing every supplied
filter, an empty filter mapping returns the collection unchanged, and a
row is retained iff each filter key naming a column matches its
stringified cell. -/
def SearchCorrect (gdf : GeoDataFrame) (filters : List (String × String)) : Prop :=
  search_features gdf filters =
    (convertToWGS84 gdf).feats.filter (fun f => filters.all (fun kv => filterPass gdf.columns kv f))
  ∧ search_features gdf [] = (convertToWGS84 gdf).feats
  ∧ (∀ f, f ∈ search_features gdf filters ↔
      (f ∈ (convertToWGS84 gdf).feats ∧
       ∀ kv ∈ filters, gdf.columns.contains kv.1 = true →
         str_contains_ci (astype_str (f.cell kv.1)) kv.2 = true))

/-- Ranking order on (original index, area) pairs: strictly larger area,
or equal area and strictly smaller original index. -/
def rankGT (p q : ℕ × ℚ) : Prop :=
  q.2 < p.2 ∨ (p.2 = q.2 ∧ p.1 < q.1)

/-- Claim C6, stated over the embedding: `largest(n)` selects exactly
`min n total` entries, in strictly descending rank order, all drawn from
the collection, every non-selected entry ranking below every selected
one, and the summary computed from the selected subset only. -/
def LargestCorrect (gdf : GeoDataFrame) (n : ℕ) : Prop :=
  (rankedAreas gdf n).length = min n (largest_area_series gdf).length
  ∧ (get_largest_parcels gdf n).1.length = min n (largest_area_series gdf).length
  ∧ List.Pairwise rankGT (rankedAreas gdf n)
  ∧ (∀ p ∈ rankedAreas gdf n, p ∈ (largest_area_series gdf).enum)
  ∧ (∀ q ∈ (largest_area_series gdf).enum, q ∉ rankedAreas gdf n →
      ∀ p ∈ rankedAreas gdf n, rankGT p q)
  ∧ (get_largest_parcels gdf n).2 =
      area_summary ((rankedAreas gdf n).map (fun p => p.2))

/-- Claim C8 (as amended), stated over the embedding: parcel number and
owner name fall back to `PARC_{idx:04d}` and `Propriétaire {idx}`, and
the address is the `ADRESSE` cell or the fixed default. -/
def DisplayFieldsCorrect (idx : ℕ) (f : Feature) (d : Draw) : Prop :=
  (∀ v, f.cell "NUMERO" = some v → (genParcelle idx f d).numero = v)
  ∧ (f.hasCol "NUMERO" = false →
      (genParcelle idx f d).numero = "PARC_" ++ pad4 idx)
  ∧ (∀ v, f.cell "NOM" = some v → (genParcelle idx f d).proprietaireNom = v)
  ∧ (f.hasCol "NOM" = false →
      (genParcelle idx f d).proprietaireNom = "Propriétaire " ++ toString idx)
  ∧ (∀ v, f.cell "ADRESSE" = some v → (genParcelle idx f d).adresse = v)
  ∧ (f.hasCol "ADRESSE" = false →
      (genParcelle idx f d).adresse = "Biyem-Assi, Yaoundé")

/-- A geometry whose source-CRS (projected, metric) area is 100 m² but
whose planar area after reprojection to EPSG:4326 is 1 (in square
degrees): reprojection changes the planar area. -/
def gProjected : Geometry := ⟨100, 1, false⟩

/-- A one-feature collection in a projected CRS (EPSG:32632). -/
def gdfProjected : GeoDataFrame := ⟨some 32632, [], [⟨gProjected, []⟩]⟩

/-- A fixed draw: rate 100 FCFA/m², `rand_val` 0 (current), 1 month,
1 year. -/
def drawC1 : Draw := ⟨100, 0, 1, 1⟩

/-- A feature used as page filler for the pagination witness. -/
def fPlain : Feature := ⟨⟨1, 1, false⟩, []⟩

/-- A 25-feature collection for the pagination witness. -/
def gdf25 : GeoDataFrame := ⟨none, [], List.replicate 25 fPlain⟩

/-- A feature whose only attribute column carries the positive monetary
value 12345. -/
def fMonetary : Feature := ⟨⟨100, 100, false⟩, [("IMPOT", some "12345")]⟩

/-- A feature whose `NOM` cell is missing (`NaN`). -/
def fNaN : Feature := ⟨⟨1, 1, false⟩, [("NOM", none)]⟩

/-- A one-feature collection with a `NOM` column whose single cell is
missing. -/
def gdfNaN : GeoDataFrame := ⟨none, ["NOM"], [fNaN]⟩

/-- The three-feature collection of the spec's `largest(2)` example,
with areas 500, 1500 and 1000 m². -/
def gdfLargestEx : GeoDataFrame :=
  ⟨none, [], [⟨⟨500, 500, false⟩, []⟩, ⟨⟨1500, 1500, false⟩, []⟩, ⟨⟨1000, 1000, false⟩, []⟩]⟩

/-- A feature whose `ADRESSE` cell is the comma-free text `"zzz"`. -/
def fAdresse : Feature := ⟨⟨1, 1, false⟩, [("ADRESSE", some "zzz")]⟩

/-- A feature whose `NOM` cell is the ASCII text `"Alice"`. -/
def fAlice : Feature := ⟨⟨1, 1, false⟩, [("NOM", some "Alice")]⟩

/-- A one-feature collection with the single ASCII `NOM` cell. -/
def gdfAlice : GeoDataFrame := ⟨none, ["NOM"], [fAlice]⟩

instance : IsTotal (ℕ × ℚ) (fun p q => nlargestLE p q = true) := by
  constructor
  intro a b
  simp only [nlargestLE, decide_eq_true_eq]
  rcases lt_trichotomy a.2 b.2 with h | h | h
  · exact Or.inr (Or.inl h)
  · rcases le_total a.1 b.1 with hle | hle
    · exact Or.inl (Or.inr ⟨h, hle⟩)
    · exact Or.inr (Or.inr ⟨h.symm, hle⟩)
  · exact Or.inl (Or.inl h)

instance : IsTrans (ℕ × ℚ) (fun p q => nlargestLE p q = true) := by
  constructor
  intro a b c hab hbc
  simp only [nlargestLE, decide_eq_true_eq] at hab hbc ⊢
  rcases hab with h1 | ⟨h1, h2⟩ <;> rcases hbc with h3 | ⟨h3, h4⟩
  · exact Or.inl (lt_trans h3 h1)
  · exact Or.inl (h3 ▸ h1)
  · exact Or.inl (h1 ▸ h3)
  · exact Or.inr ⟨h1.trans h3, h2.trans h4⟩

theorem abs_pyRound_sub_le (q : ℚ) : |((pyRound q : ℤ) : ℚ) - q| ≤ 1/2 := by
  have h1 : ((q.num / (q.den : ℤ) : ℤ) : ℚ) ≤ q := by
    rw [← Rat.floor_def]; exact Int.floor_le q
  have h2 : q < ((q.num / (q.den : ℤ) : ℤ) : ℚ) + 1 := by
    rw [← Rat.floor_def]; exact Int.lt_floor_add_one q
  rw [pyRound]
  split
  · rename_i h
    rw [abs_le]; constructor <;> linarith
  · split
    · rename_i h h'
      rw [abs_le]; push_cast; constructor <;> linarith
    · split
      · rename_i h h' _
        have ha := not_lt.mp h
        have hb := not_lt.mp h'
        rw [abs_le]; constructor <;> linarith
      · rename_i h h' _
        have ha := not_lt.mp h
        have hb := not_lt.mp h'
        rw [abs_le]; push_cast; constructor <;> linarith

theorem pyRound_nonneg {q : ℚ} (h : 0 ≤ q) : 0 ≤ pyRound q := by
  have hf : (0 : ℤ) ≤ q.num / (q.den : ℤ) := by
    rw [← Rat.floor_def]; exact Int.floor_nonneg.mpr h
  rw [pyRound]
  split
  · exact hf
  · split
    · omega
    · split
      · exact hf
      · omega

theorem pyRoundTo_nonneg {q : ℚ} (n : ℕ) (h : 0 ≤ q) : 0 ≤ pyRoundTo q n := by
  have hr := pyRound_nonneg (q := q * 10^n) (by positivity)
  rw [pyRoundTo]
  have h10 : (0 : ℚ) < 10^n := by positivity
  have : (0 : ℚ) ≤ ((pyRound (q * 10^n) : ℤ) : ℚ) := by exact_mod_cast hr
  positivity

theorem convert_feats_length (gdf : GeoDataFrame) :
    (convertToWGS84 gdf).feats.length = gdf.feats.length := by
  rw [convertToWGS84]
  rcases gdf with ⟨crs, cols, feats⟩
  cases crs with
  | none => rfl
  | some e =>
    dsimp only
    split
    · simp [GeoDataFrame.to_crs4326]
    · rfl

/-- C1.  The per-feature planar area that both the largest-parcels query
and the Fiscal Status Simulator work from is taken from the geometry
after the WGS84 conversion block, not from the source-CRS geometry: on a
one-feature collection in a projected CRS whose source-CRS area is
100 m² but whose reprojected area is 1, both endpoints report area 1 —
the display-CRS value — and not 100.  This contradicts the spec (and the
code's own comments, which label the value `en m²`). -/
theorem area_computed_after_reprojection :
    largest_area_series gdfProjected = [1]
    ∧ gProjected.srcArea = 100
    ∧ (rankedAreas gdfProjected 3).map (fun p => p.2) = [1]
    ∧ ((get_parcelles_with_status gdfProjected [drawC1]).1.map
        (fun p => p.superficie)) = [1]
    ∧ gdfProjected.feats.map (fun f => f.geometry.srcArea) = [100] := by
  refine ⟨by decide, by decide, by decide, by decide, by decide⟩

/-- C2.  For positive `page` and `per_page`, the pagination slice is the
mathematically defined contiguous range clipped to the collection, an
out-of-range page gives an empty slice, and `total_pages` is the ceiling
of `total / per_page`. -/
theorem get_features_paginates (gdf : GeoDataFrame) (page per_page : ℕ)
    (hp : 1 ≤ page) (hpp : 1 ≤ per_page) : PaginationCorrect gdf page per_page := by
  refine ⟨?_, ?_, ?_, ?_⟩
  · intro i
    simp only [get_features, List.getElem?_take, List.getElem?_drop]
  · simp [get_features, List.length_take, List.length_drop]
  · intro h
    simp only [get_features]
    rw [List.drop_eq_nil_of_le h, List.take_nil]
  · intro k
    have he : (get_features gdf page per_page).2
        = (convertToWGS84 gdf).feats.length ⌈/⌉ per_page := by
      rw [Nat.ceilDiv_eq_add_pred_div]; rfl
    rw [he]
    exact ceilDiv_le_iff_le_mul (by omega)

/-- C2 witness: the spec's own example, `paginate(total=25, page=3,
per_page=10)`, on a concrete 25-feature collection. -/
theorem get_features_paginates_witness :
    1 ≤ 3 ∧ 1 ≤ 10 ∧ PaginationCorrect gdf25 3 10
    ∧ (get_features gdf25 3 10).1.length = 5
    ∧ (get_features gdf25 3 10).2 = 3 := by
  refine ⟨by decide, by decide, get_features_paginates gdf25 3 10 (by decide) (by decide),
    by decide, by decide⟩

/-- C7.  `get_feature` answers `not found` exactly when the id is
outside `[0, len)`, otherwise succeeds with the feature at that
position; its index check never produces the generic failure signal. -/
theorem get_feature_by_index (gdf : GeoDataFrame) (i : ℤ) :
    GetByIndexCorrect gdf i := by
  have hlen := convert_feats_length gdf
  by_cases hc : i < 0 ∨ (gdf.feats.length : ℤ) ≤ i
  · refine ⟨?_, ?_, ?_⟩
    · rw [get_feature, if_pos hc]
      simp [hc]
    · rw [get_feature, if_pos hc]
      simp
    · intro j hj hjlen
      exfalso
      omega
  · have hi0 : 0 ≤ i := by omega
    have hilt : i < gdf.feats.length := by omega
    have hnat : i.toNat < (convertToWGS84 gdf).feats.length := by
      rw [hlen]; omega
    have hsome : (convertToWGS84 gdf).feats[i.toNat]? =
        some ((convertToWGS84 gdf).feats[i.toNat]) :=
      List.getElem?_eq_getElem hnat
    have hok : get_feature gdf i = .ok ((convertToWGS84 gdf).feats[i.toNat]) := by
      rw [get_feature, if_neg hc, hsome]
    refine ⟨?_, ?_, ?_⟩
    · rw [hok]
      simp [hc]
    · rw [hok]
      simp
    · intro j hj hjlen
      refine ⟨(convertToWGS84 gdf).feats[i.toNat], ?_, hok⟩
      have : j = i.toNat := by omega
      rw [this]
      exact hsome

/-- C7 witness: a concrete two-feature collection, looked up at id 1. -/
theorem get_feature_by_index_witness :
    GetByIndexCorrect ⟨none, [], [fPlain, fNaN]⟩ 1
    ∧ get_feature ⟨none, [], [fPlain, fNaN]⟩ 1 = .ok fNaN
    ∧ get_feature ⟨none, [], [fPlain, fNaN]⟩ 2 = .notFound := by
  exact ⟨get_feature_by_index _ 1, by decide, by decide⟩

/-- C4.  With the draw in its documented ranges, the simulator's status
bands and owed amounts are exactly those of the claim: `r < 0.40`
current with 0 owed, `0.40 ≤ r < 0.75` late owing
`round(annual_tax / 12 × months)`, `r ≥ 0.75` unpaid owing
`annual_tax × years`. -/
theorem statut_bands (idx : ℕ) (f : Feature) (d : Draw)
    (h0 : 0 ≤ d.rand_val) (h1 : d.rand_val < 1)
    (hm1 : 1 ≤ d.mois_retard) (hm6 : d.mois_retard ≤ 6)
    (hy1 : 1 ≤ d.annees_impayees) (hy3 : d.annees_impayees ≤ 3) :
    StatusRuleCorrect idx f d := by
  refine ⟨fun ha => ?_, fun ha hb => ?_, fun ha => ?_⟩
  · constructor <;> simp [genParcelle, if_pos ha]
  · have hna : ¬ d.rand_val < 2/5 := not_lt.mpr ha
    constructor <;> simp [genParcelle, if_neg hna, if_pos hb]
  · have hna : ¬ d.rand_val < 2/5 := not_lt.mpr (le_trans (by norm_num) ha)
    have hnb : ¬ d.rand_val < 3/4 := not_lt.mpr ha
    constructor <;> simp [genParcelle, if_neg hna, if_neg hnb]

/-- C4 witness: a concrete late-band draw (`r = 1/2`, 3 months) on a
100 m² feature. -/
theorem statut_bands_witness :
    ((0 : ℚ) ≤ 1/2 ∧ (1/2 : ℚ) < 1 ∧ (1 : ℤ) ≤ 3 ∧ (3 : ℤ) ≤ 6
      ∧ (1 : ℤ) ≤ 2 ∧ (2 : ℤ) ≤ 3)
    ∧ StatusRuleCorrect 7 fPlain ⟨100, 1/2, 3, 2⟩
    ∧ (genParcelle 7 fPlain ⟨100, 1/2, 3, 2⟩).statut = Statut.en_retard
    ∧ (genParcelle 7 fPlain ⟨100, 1/2, 3, 2⟩).montantDu = 0 := by
  refine ⟨by norm_num, statut_bands 7 fPlain ⟨100, 1/2, 3, 2⟩ (by norm_num) (by norm_num)
    (by decide) (by decide) (by decide) (by decide), by decide, by decide⟩

/-- C9.  The aggregate compliance rate is `(current / total) × 100`
rounded to 1 decimal when the collection is nonempty, and the guarded
`else` branch yields exactly 0 on an empty one; the current-count is the
number of records with status `a_jour` and `total` the record count. -/
theorem taux_conformite_guarded (ps : List Parcelle) :
    (ps.length = 0 → (computeStats ps).tauxConformite = 0)
    ∧ (0 < ps.length → (computeStats ps).tauxConformite =
        pyRoundTo (100 *
          ((ps.filter (fun p => decide (p.statut = Statut.a_jour))).length : ℚ)
          / ps.length) 1)
    ∧ (computeStats ps).parcellesAJour =
        (ps.filter (fun p => decide (p.statut = Statut.a_jour))).length
    ∧ (computeStats ps).total = ps.length := by
  refine ⟨fun h => ?_, fun h => ?_, rfl, rfl⟩
  · simp [computeStats, h]
  · have hq : (((ps.filter (fun p => decide (p.statut = Statut.a_jour))).length : ℚ)
        / ps.length) * 100 =
        100 * ((ps.filter (fun p => decide (p.statut = Statut.a_jour))).length : ℚ)
          / ps.length := by ring
    simp only [computeStats, if_pos h]
    rw [hq]

/-- C9 witness: one current and one unpaid record; the rate evaluates
to 50. -/
theorem taux_conformite_guarded_witness :
    0 < ([⟨"a", "b", "c", 1, 1000, 0, Statut.a_jour⟩,
          ⟨"d", "e", "g", 1, 1000, 1000, Statut.impaye⟩] : List Parcelle).length
    ∧ (computeStats [⟨"a", "b", "c", 1, 1000, 0, Statut.a_jour⟩,
          ⟨"d", "e", "g", 1, 1000, 1000, Statut.impaye⟩]).tauxConformite = 50 := by
  have h := (taux_conformite_guarded
    [⟨"a", "b", "c", 1, 1000, 0, Statut.a_jour⟩,
     ⟨"d", "e", "g", 1, 1000, 1000, Statut.impaye⟩]).2.1 (by decide)
  exact ⟨by decide, h.trans (by decide)⟩

/-- C10.  For a feature with non-negative surface area and a rate in the
documented `[100, 1000)` range, the generated annual tax is a
non-negative multiple of 1000, and for an unpaid record the owed amount
`annual_tax × years` is a multiple of 1000 as well. -/
theorem impot_multiple_of_1000 (idx : ℕ) (f : Feature) (d : Draw)
    (hA : 0 ≤ f.geometry.area) (hr1 : 100 ≤ d.prix_m2) (hr2 : d.prix_m2 < 1000) :
    0 ≤ (genParcelle idx f d).impotAnnuel
    ∧ (1000 : ℤ) ∣ (genParcelle idx f d).impotAnnuel
    ∧ ((genParcelle idx f d).statut = Statut.impaye →
        (1000 : ℤ) ∣ (genParcelle idx f d).montantDu) := by
  have hs : 0 ≤ pyRoundTo f.geometry.area 2 := pyRoundTo_nonneg 2 hA
  have hprix : (0 : ℚ) ≤ d.prix_m2 := le_trans (by norm_num) hr1
  have harg : (0 : ℚ) ≤ pyRoundTo f.geometry.area 2 * d.prix_m2 / 1000 := by positivity
  have himp : 0 ≤ impot_annuel (pyRoundTo f.geometry.area 2) d.prix_m2 := by
    rw [impot_annuel]
    exact mul_nonneg (pyRound_nonneg harg) (by norm_num)
  have hdvd : (1000 : ℤ) ∣ impot_annuel (pyRoundTo f.geometry.area 2) d.prix_m2 :=
    Dvd.intro _ (mul_comm _ _)
  refine ⟨?_, ?_, ?_⟩
  · simpa [genParcelle] using himp
  · simpa [genParcelle] using hdvd
  · intro hst
    by_cases hc1 : d.rand_val < 2/5
    · exfalso
      have : (genParcelle idx f d).statut = Statut.a_jour := by
        simp [genParcelle, if_pos hc1]
      rw [hst] at this
      exact absurd this (by decide)
    · by_cases hc2 : d.rand_val < 3/4
      · exfalso
        have : (genParcelle idx f d).statut = Statut.en_retard := by
          simp [genParcelle, if_neg hc1, if_pos hc2]
        rw [hst] at this
        exact absurd this (by decide)
      · have hmd : (genParcelle idx f d).montantDu =
            impot_annuel (pyRoundTo f.geometry.area 2) d.prix_m2 * d.annees_impayees := by
          simp [genParcelle, if_neg hc1, if_neg hc2]
        rw [hmd]
        exact Dvd.dvd.mul_right hdvd _

/-- C10 witness: a 100 m² feature at rate 100 in the unpaid band. -/
theorem impot_multiple_of_1000_witness :
    ((0 : ℚ) ≤ (100 : ℚ) ∧ (100 : ℚ) ≤ 100 ∧ (100 : ℚ) < 1000)
    ∧ (0 ≤ (genParcelle 0 ⟨⟨100, 100, false⟩, []⟩ ⟨100, 4/5, 1, 2⟩).impotAnnuel
      ∧ (1000 : ℤ) ∣ (genParcelle 0 ⟨⟨100, 100, false⟩, []⟩ ⟨100, 4/5, 1, 2⟩).impotAnnuel
      ∧ ((genParcelle 0 ⟨⟨100, 100, false⟩, []⟩ ⟨100, 4/5, 1, 2⟩).statut = Statut.impaye →
          (1000 : ℤ) ∣ (genParcelle 0 ⟨⟨100, 100, false⟩, []⟩ ⟨100, 4/5, 1, 2⟩).montantDu)) := by
  refine ⟨⟨by norm_num, by norm_num, by norm_num⟩, ?_⟩
  exact impot_multiple_of_1000 0 ⟨⟨100, 100, false⟩, []⟩ ⟨100, 4/5, 1, 2⟩
    (by norm_num [Geometry.area]) (by norm_num) (by norm_num)

/-- C3 counterexample: `get_parcelles_with_status` never consults an
attribute when computing the annual tax.  On a feature whose (only)
attribute column carries the positive monetary value 12345, the claimed
rule returns 12345 while the code — at the concrete draw
`prix_m2 = 100` — returns 10000. -/
theorem impot_ignores_monetary_attribute :
    fMonetary.cell "IMPOT" = some "12345"
    ∧ (genParcelle 0 fMonetary ⟨100, 0, 1, 1⟩).impotAnnuel = 10000
    ∧ claimC3Tax (some 12345)
        (genParcelle 0 fMonetary ⟨100, 0, 1, 1⟩).superficie 100 = 12345
    ∧ (10000 : ℤ) ≠ 12345 := by
  refine ⟨by decide, by decide, by decide, by decide⟩

/-- C3 (as amended).  The annual tax is always
`round(superficie × prix_m2 / 1000) × 1000` for the drawn rate — no
attribute is consulted — and it is the surface-proportional amount
rounded to the nearest 1000 currency units: a multiple of 1000 within
500 of `superficie × prix_m2`. -/
theorem impot_formula (idx : ℕ) (f : Feature) (d : Draw) :
    (genParcelle idx f d).impotAnnuel =
      impot_annuel (genParcelle idx f d).superficie d.prix_m2
    ∧ (1000 : ℤ) ∣ (genParcelle idx f d).impotAnnuel
    ∧ |(((genParcelle idx f d).impotAnnuel : ℤ) : ℚ) -
        (genParcelle idx f d).superficie * d.prix_m2| ≤ 500 := by
  have hs : (genParcelle idx f d).superficie = pyRoundTo f.geometry.area 2 := by
    simp [genParcelle]
  have hi : (genParcelle idx f d).impotAnnuel =
      impot_annuel (pyRoundTo f.geometry.area 2) d.prix_m2 := by
    simp [genParcelle]
  refine ⟨by rw [hi, hs], by rw [hi]; exact Dvd.intro _ (mul_comm _ _), ?_⟩
  rw [hi, hs]
  set s := pyRoundTo f.geometry.area 2 with hsdef
  rw [impot_annuel]
  push_cast
  have hb := abs_pyRound_sub_le (s * d.prix_m2 / 1000)
  have hc : s * d.prix_m2 / 1000 * 1000 = s * d.prix_m2 :=
    div_mul_cancel₀ _ (by norm_num)
  rw [abs_le] at hb ⊢
  constructor <;> linarith [hb.1, hb.2, hc]

theorem get_field_of_cell {f : Feature} {col v : String} (dflt : String)
    (h : f.cell col = some v) : get_field f col dflt = v := by
  rw [get_field]
  rw [Feature.cell] at h
  cases hf : f.attrs.find? (fun p => p.1 == col) with
  | none => rw [hf] at h; exact absurd h (by simp)
  | some p =>
    rw [hf] at h
    dsimp only at h ⊢
    rw [h]

theorem get_field_of_absent {f : Feature} {col : String} (dflt : String)
    (h : f.hasCol col = false) : get_field f col dflt = dflt := by
  rw [get_field]
  rw [Feature.hasCol] at h
  cases hf : f.attrs.find? (fun p => p.1 == col) with
  | none => rfl
  | some p => rw [hf] at h; exact absurd h (by simp)

/-- C8 counterexample: the simulator's address is the raw `ADRESSE` cell
when that column is present — on a feature whose `ADRESSE` cell is
`"zzz"` the address is `"zzz"`, a string that cannot be of either
claimed composite form `{locality}, {district}, {commune}` or
`{district}, {commune}`, since both contain the separator `", "`. -/
theorem adresse_not_composite :
    (genParcelle 0 fAdresse drawC1).adresse = "zzz"
    ∧ (∀ a b : String, "zzz" ≠ a ++ ", " ++ b) := by
  refine ⟨by decide, ?_⟩
  intro a b h
  have hm : (',' : Char) ∈ ((a ++ ", ") ++ b).data := by
    rw [String.data_append]
    apply List.mem_append_left
    rw [String.data_append]
    exact List.mem_append_right _ (by decide)
  rw [← h] at hm
  exact absurd hm (by decide)

/-- C8 (as amended).  Parcel number and owner name resolve to the
attribute cell with fallbacks `PARC_{idx:04d}` and `Propriétaire {idx}`,
and the address resolves to the `ADRESSE` cell with the fixed fallback
`Biyem-Assi, Yaoundé`. -/
theorem display_fields (idx : ℕ) (f : Feature) (d : Draw) :
    DisplayFieldsCorrect idx f d := by
  have hn : (genParcelle idx f d).numero =
      get_field f "NUMERO" ("PARC_" ++ pad4 idx) := by simp [genParcelle]
  have hp : (genParcelle idx f d).proprietaireNom =
      get_field f "NOM" ("Propriétaire " ++ toString idx) := by simp [genParcelle]
  have ha : (genParcelle idx f d).adresse =
      get_field f "ADRESSE" "Biyem-Assi, Yaoundé" := by simp [genParcelle]
  refine ⟨fun v hv => ?_, fun h => ?_, fun v hv => ?_, fun h => ?_,
    fun v hv => ?_, fun h => ?_⟩
  · rw [hn, get_field_of_cell _ hv]
  · rw [hn, get_field_of_absent _ h]
  · rw [hp, get_field_of_cell _ hv]
  · rw [hp, get_field_of_absent _ h]
  · rw [ha, get_field_of_cell _ hv]
  · rw [ha, get_field_of_absent _ h]

theorem applyFilters_eq_filter (cols : List String)
    (filters : List (String × String)) :
    ∀ feats : List Feature, applyFilters cols filters feats =
      feats.filter (fun f => filters.all (fun kv => filterPass cols kv f)) := by
  induction filters with
  | nil =>
    intro feats
    simp [applyFilters, List.filter_true]
  | cons kv rest ih =>
    intro feats
    show applyFilters cols rest
        (if cols.contains kv.1 then
          feats.filter (fun f => str_contains_ci (astype_str (f.cell kv.1)) kv.2)
        else feats) = _
    by_cases hc : cols.contains kv.1
    · rw [if_pos hc, ih, List.filter_filter]
      apply List.filter_congr
      intro f _
      have hpass : filterPass cols kv f =
          str_contains_ci (astype_str (f.cell kv.1)) kv.2 := by
        rw [filterPass, hc]
        rfl
      rw [List.all_cons, hpass]
      exact Bool.and_comm _ _
    · rw [if_neg hc, ih]
      apply List.filter_congr
      intro f _
      have hcf : cols.contains kv.1 = false := by
        rw [Bool.not_eq_true] at hc
        exact hc
      have hpass : filterPass cols kv f = true := by
        rw [filterPass, hcf]
        rfl
      rw [List.all_cons, hpass, Bool.true_and]

/-- C5 (as amended).  For filter values that are ASCII patterns free of
regex metacharacters — on which the code's `re.search` is exactly a
case-insensitive substring test and cannot raise `re.error` — and
collections whose attribute cells are ASCII text, the search result is
exactly the in-order subcollection of rows passing every supplied
filter: keys naming no column are ignored, an empty filter mapping
returns the collection unchanged, and a row is retained iff — for every
filter key naming a column — its cell, stringified by `astype(str)` (a
missing cell becomes the text `"nan"`), contains the pattern
case-insensitively.  The two hypotheses delimit the fragment on which
the embedding is the code's exact semantics; patterns with
metacharacters act as regular expressions and are not characterized
here. -/
theorem search_characterization (gdf : GeoDataFrame)
    (filters : List (String × String))
    (hpat : ∀ kv ∈ filters, plainPattern kv.2 = true)
    (hcells : ∀ f ∈ gdf.feats, ∀ a ∈ f.attrs, a.2.all asciiText = true) :
    SearchCorrect gdf filters := by
  have hcols : (convertToWGS84 gdf).columns = gdf.columns := by
    rw [convertToWGS84]
    rcases gdf with ⟨crs, cols, feats⟩
    cases crs with
    | none => rfl
    | some e =>
      dsimp only
      split
      · rfl
      · rfl
  have heq : search_features gdf filters =
      (convertToWGS84 gdf).feats.filter
        (fun f => filters.all (fun kv => filterPass gdf.columns kv f)) := by
    rw [search_features, hcols]
    exact applyFilters_eq_filter gdf.columns filters (convertToWGS84 gdf).feats
  refine ⟨heq, ?_, ?_⟩
  · rw [search_features, hcols]
    rfl
  · intro f
    rw [heq, List.mem_filter]
    constructor
    · rintro ⟨hmem, hall⟩
      refine ⟨hmem, ?_⟩
      intro kv hkv hcol
      have := (List.all_eq_true.mp hall) kv hkv
      rw [filterPass, hcol] at this
      simpa using this
    · rintro ⟨hmem, hall⟩
      refine ⟨hmem, ?_⟩
      rw [List.all_eq_true]
      intro kv hkv
      rw [filterPass]
      by_cases hcol : gdf.columns.contains kv.1
      · rw [hcol]
        simpa using hall kv hkv hcol
      · rw [Bool.not_eq_true] at hcol
        rw [hcol]
        rfl

/-- C5 witness: both fragment hypotheses hold at the concrete
collection with the single ASCII `NOM` cell `"Alice"` and the plain
filter `("NOM", "ali")`; the characterization applies and the filter
indeed retains the row. -/
theorem search_characterization_witness :
    (∀ kv ∈ [("NOM", "ali")], plainPattern kv.2 = true)
    ∧ (∀ f ∈ gdfAlice.feats, ∀ a ∈ f.attrs, a.2.all asciiText = true)
    ∧ SearchCorrect gdfAlice [("NOM", "ali")]
    ∧ search_features gdfAlice [("NOM", "ali")] = [fAlice] := by
  refine ⟨by decide, by decide,
    search_characterization gdfAlice [("NOM", "ali")] (by decide) (by decide),
    by decide⟩

/-- C5 counterexample: a feature whose `NOM` cell is missing (`NaN`) is
nevertheless returned by the search for the pattern `"nan"` on `NOM` —
`astype(str)` stringifies the missing cell to `"nan"` before matching,
so a null cell does not exclude the feature.  The pattern `"nan"` is
ASCII and metacharacter-free, so on this input the embedding is the
code's exact regex-search semantics. -/
theorem search_returns_nan_feature :
    plainPattern "nan" = true
    ∧ fNaN.cell "NOM" = none
    ∧ search_features gdfNaN [("NOM", "nan")] = [fNaN]
    ∧ search_features gdfNaN [("NOM", "nan")] ≠ [] := by
  refine ⟨by decide, by decide, by decide, by decide⟩

theorem enum_nodup (l : List ℚ) : l.enum.Nodup := by
  have h : (l.enum.map Prod.fst).Nodup := by
    rw [List.enum_map_fst]
    exact List.nodup_range _
  exact h.of_map _

theorem rankGT_of_le_ne {p q : ℕ × ℚ} (h : nlargestLE p q = true)
    (hne : p ≠ q) : rankGT p q := by
  rw [nlargestLE, decide_eq_true_eq] at h
  rcases h with h | ⟨h1, h2⟩
  · exact Or.inl h
  · refine Or.inr ⟨h1, lt_of_le_of_ne h2 (fun heq => hne ?_)⟩
    exact Prod.ext_iff.mpr ⟨heq, h1⟩

/-- C6.  `largest(n)` selects exactly `min n total` entries, strictly
ordered by descending area with ties broken by ascending original index,
all drawn from the collection, with every non-selected entry ranking
below every selected one and the summary computed over the selected
subset only; on the spec's example collection (areas 500, 1500,
1000 m²), `largest(2)` is [1500, 1000] with summary max 1500, min 1000,
average 1250. -/
theorem largest_correct :
    (∀ (gdf : GeoDataFrame) (n : ℕ), LargestCorrect gdf n)
    ∧ (rankedAreas gdfLargestEx 2).map (fun p => p.2) = [1500, 1000]
    ∧ (get_largest_parcels gdfLargestEx 2).2.max_area_m2 = 1500
    ∧ (get_largest_parcels gdfLargestEx 2).2.min_area_m2 = 1000
    ∧ (get_largest_parcels gdfLargestEx 2).2.average_area_m2 = 1250 := by
  refine ⟨?_, by decide, by decide, by decide, by decide⟩
  intro gdf n
  set r : (ℕ × ℚ) → (ℕ × ℚ) → Prop := fun p q => nlargestLE p q = true with hr
  set l : List (ℕ × ℚ) := (largest_area_series gdf).enum with hl
  set sorted : List (ℕ × ℚ) := List.insertionSort r l with hsorteddef
  have hperm : sorted.Perm l := List.perm_insertionSort r l
  have hsorted : List.Sorted r sorted := List.sorted_insertionSort r l
  have hnodup : sorted.Nodup := hperm.nodup_iff.mpr (enum_nodup _)
  have hranked : rankedAreas gdf n = sorted.take n := rfl
  have hlen : (rankedAreas gdf n).length = min n (largest_area_series gdf).length := by
    rw [hranked, List.length_take, hperm.length_eq, List.enum_length]
  have htake_nodup : (sorted.take n).Nodup :=
    hnodup.sublist (List.take_sublist n sorted)
  have htake_pairwise : List.Pairwise r (sorted.take n) :=
    hsorted.sublist (List.take_sublist n sorted)
  have happ : List.Pairwise r (sorted.take n ++ sorted.drop n) := by
    rw [List.take_append_drop]
    exact hsorted
  have hndapp : (sorted.take n ++ sorted.drop n).Nodup := by
    rw [List.take_append_drop]
    exact hnodup
  have hcross := (List.pairwise_append.mp happ).2.2
  have hdisj := (List.nodup_append.mp hndapp).2.2
  refine ⟨hlen, ?_, ?_, ?_, ?_, rfl⟩
  · rw [get_largest_parcels]
    dsimp only
    rw [List.length_map, List.enum_length]
    exact hlen
  · rw [hranked]
    refine (htake_pairwise.and htake_nodup).imp ?_
    rintro a b ⟨hab, hne⟩
    exact rankGT_of_le_ne hab hne
  · intro p hp
    rw [hranked] at hp
    have : p ∈ sorted := List.take_subset n sorted hp
    exact hperm.mem_iff.mp this
  · intro q hq hqsel p hp
    rw [hranked] at hp hqsel
    have hqsorted : q ∈ sorted := hperm.mem_iff.mpr hq
    have hqdrop : q ∈ sorted.drop n := by
      have := (List.take_append_drop n sorted) ▸ hqsorted
      rcases List.mem_append.mp this with hq1 | hq2
      · exact absurd hq1 hqsel
      · exact hq2
    have hrpq : r p q := hcross p hp q hqdrop
    have hne : p ≠ q := fun heq => hdisj hp (heq ▸ hqdrop)
    exact rankGT_of_le_ne hrpq hne
